import Mathlib

/-!
Shallow embedding of `src/analysis.py` (Azure DevOps repository statistics
reporter).  Each HTTP fetch is modelled by a `FetchResult` value supplied by an
environment: `ok` carries the decoded JSON payload at the granularity the code
reads it, `httpError s` models `requests.get` answering with status `s` so that
`response.raise_for_status()` raises `requests.exceptions.HTTPError`, and
`otherError` models any other exception (connection failure, JSON decode
error, ...).  Uncaught Python exceptions are modelled by `Except Err`.
Timestamps are UTC epoch seconds (`Nat`); `datetime.now(timezone.utc)` is the
environment's `now` field and `timedelta(days=30)` is `30 * 86400` seconds.
-/

namespace Analysis

/-- Outcome of one `requests.get` + `raise_for_status` + `.json()` sequence. -/
inductive FetchResult (α : Type) where
  | ok (a : α)
  | httpError (status : Nat)
  | otherError
deriving Repr, DecidableEq

/-- Whether the fetch succeeded (no exception raised). -/
def FetchResult.isOk {α : Type} : FetchResult α → Bool
  | .ok _ => true
  | _ => false

/-- An uncaught Python exception escaping one of the metric fetchers. -/
inductive Err where
  | http (status : Nat)
  | other
deriving Repr, DecidableEq

/-- A value that the Python code stores in a variable that may hold either a
number or a sentinel string (e.g. `size`, `file_count`). -/
inductive CellVal where
  | num (n : Nat)
  | str (s : String)
deriving Repr, DecidableEq

/-- The `project` sub-object embedded in a repository-metadata response. -/
structure ProjObj where
  lastUpdateTime : Option String
deriving Repr, DecidableEq

/-- Repository-metadata response body, at the granularity
`get_repository_metadata` reads it.  `repoLastUpdateTime` models a
repository-level timestamp field that the response may carry; the code never
reads it. -/
structure RepoMetaPayload where
  size : Option Nat
  repoLastUpdateTime : Option String
  projectObj : Option ProjObj
deriving Repr, DecidableEq

/-- One entry of the items listing: whether it is a JSON object (`dict`) and
whether it carries a `"size"` attribute. -/
structure Item where
  isDict : Bool
  hasSize : Bool
deriving Repr, DecidableEq

/-- Items-listing response body: optional server-reported `count` plus the
`value` list. -/
structure FilesPayload where
  count : Option Nat
  value : List Item
deriving Repr, DecidableEq

/-- One pull-request entry; the code reads only its `status` field. -/
structure PullRequest where
  status : String
deriving Repr, DecidableEq

/-- One repository entry from the repository listing. -/
structure Repo where
  id : String
  name : String
deriving Repr, DecidableEq

/-- The responses the environment has in store for one repository's five
per-repository fetches.  `commits` carries the timestamps of all commits of
the repository; the server filters them by the query's date range. -/
structure RepoEnv where
  metadata : FetchResult RepoMetaPayload
  branches : FetchResult (List String)
  files : FetchResult FilesPayload
  pulls : FetchResult (List PullRequest)
  commits : FetchResult (List Nat)
deriving Repr, DecidableEq

/-- One project together with the outcome of its repository listing. -/
structure ProjectEnv where
  name : String
  repos : FetchResult (List (Repo × RepoEnv))
deriving Repr, DecidableEq

/-- A whole run's environment: the current UTC time (epoch seconds) and the
outcome of the project listing. -/
structure Env where
  now : Nat
  projects : FetchResult (List ProjectEnv)
deriving Repr, DecidableEq

/-- `get_repository_metadata`: on success, `size = data.get("size", 0)` and
`last_updated = data.get("project", {}).get("lastUpdateTime", "Unknown")`;
on `HTTPError` with status 404 both fields degrade to
`"Archived/Inaccessible"`; on any other `HTTPError` or any other exception
both degrade to `"Error"`.  Never raises. -/
def get_repository_metadata (r : FetchResult RepoMetaPayload) : CellVal × String :=
  match r with
  | .ok d =>
      (CellVal.num (d.size.getD 0),
        (match d.projectObj with
          | some p => p.lastUpdateTime.getD "Unknown"
          | none => "Unknown"))
  | .httpError s =>
      if s = 404 then (CellVal.str "Archived/Inaccessible", "Archived/Inaccessible")
      else (CellVal.str "Error", "Error")
  | .otherError => (CellVal.str "Error", "Error")

/-- `get_branches`: counts the refs returned under `value`; has no exception
handler, so any failure propagates. -/
def get_branches (r : FetchResult (List String)) : Except Err Nat :=
  match r with
  | .ok refs => .ok refs.length
  | .httpError s => .error (.http s)
  | .otherError => .error .other

/-- `get_files`: on success uses `data.get("count")` when present, otherwise
counts the entries of `value` that are dicts carrying a `"size"` key; on
`HTTPError` with status 404 returns `0`; on any other `HTTPError` or any
other exception returns the string `"Error fetching files"`.  Never raises. -/
def get_files (r : FetchResult FilesPayload) : CellVal :=
  match r with
  | .ok d =>
      match d.count with
      | some c => .num c
      | none => .num ((d.value.filter (fun it => it.isDict && it.hasSize)).length)
  | .httpError s =>
      if s = 404 then .num 0 else .str "Error fetching files"
  | .otherError => .str "Error fetching files"

/-- `get_pull_request_metrics`: counts the entries whose `status` equals
`"active"`; has no exception handler, so any failure propagates. -/
def get_pull_request_metrics (r : FetchResult (List PullRequest)) : Except Err Nat :=
  match r with
  | .ok prs => .ok ((prs.filter (fun pr => pr.status == "active")).length)
  | .httpError s => .error (.http s)
  | .otherError => .error .other

/-- Modelled from the spec: the hosting service's commits endpoint, queried
with `searchCriteria.fromDate`/`searchCriteria.toDate`, returns the commits
whose timestamp lies in the inclusive range `[fromD, toD]`.  (The server-side
filtering is not code of this repository; the spec describes the bounds as
inclusive.) -/
def serverCommitsInRange (fromD toD : Nat) (ts : List Nat) : List Nat :=
  ts.filter (fun t => decide (fromD ≤ t) && decide (t ≤ toD))

/-- `get_commit_frequency`: queries commits with
`fromDate = now - timedelta(days=30)` and `toDate = now` and counts the
returned entries; has no exception handler, so any failure propagates. -/
def get_commit_frequency (now : Nat) (r : FetchResult (List Nat)) : Except Err Nat :=
  match r with
  | .ok ts => .ok ((serverCommitsInRange (now - 30 * 86400) now ts).length)
  | .httpError s => .error (.http s)
  | .otherError => .error .other

/-- Two-digit zero-padded decimal, as in `strftime` fields. -/
def pad2 (n : Nat) : String :=
  if n < 10 then "0" ++ toString n else toString n

/-- Four-digit zero-padded decimal, for the `%Y` field. -/
def pad4 (n : Nat) : String :=
  if n < 10 then "000" ++ toString n
  else if n < 100 then "00" ++ toString n
  else if n < 1000 then "0" ++ toString n
  else toString n

/-- Civil date (year, month, day) of a count of days since 1970-01-01,
for non-negative day counts (the Gregorian calendar computation used by
`datetime`). -/
def civilFromDays (z : Nat) : Nat × Nat × Nat :=
  let z' := z + 719468
  let era := z' / 146097
  let doe := z' % 146097
  let yoe := (doe - doe / 1460 + doe / 36524 - doe / 146096) / 365
  let y := yoe + era * 400
  let doy := doe - (365 * yoe + yoe / 4 - yoe / 100)
  let mp := (5 * doy + 2) / 153
  let d := doy - (153 * mp + 2) / 5 + 1
  let m := if mp < 10 then mp + 3 else mp - 9
  if m ≤ 2 then (y + 1, m, d) else (y, m, d)

/-- `strftime("%Y-%m-%dT%H:%M:%SZ")` on a UTC epoch-second timestamp: the
ISO-8601 UTC string the code interpolates into the commits query. -/
def isoFormat (t : Nat) : String :=
  let ymd := civilFromDays (t / 86400)
  let sod := t % 86400
  pad4 ymd.1 ++ "-" ++ pad2 ymd.2.1 ++ "-" ++ pad2 ymd.2.2 ++ "T" ++
    pad2 (sod / 3600) ++ ":" ++ pad2 (sod % 3600 / 60) ++ ":" ++ pad2 (sod % 60) ++ "Z"

/-- The `searchCriteria.fromDate` and `searchCriteria.toDate` strings that
`get_commit_frequency` puts into the query URL. -/
def commitQueryBounds (now : Nat) : String × String :=
  (isoFormat (now - 30 * 86400), isoFormat now)

/-- Round `num / den` to the nearest integer, ties to even: the rounding of
Python's `format(x, ".2f")` applied to the exact quotient. -/
def roundHalfEven (num den : Nat) : Nat :=
  if 2 * (num % den) > den then num / den + 1
  else if 2 * (num % den) < den then num / den
  else if (num / den) % 2 = 0 then num / den else num / den + 1

/-- `f"{size / 1024:.2f}"`: the size divided by 1024, rendered with exactly
two digits after the decimal point. -/
def formatKB (size : Nat) : String :=
  let c := roundHalfEven (size * 100) 1024
  toString (c / 100) ++ "." ++ pad2 (c % 100)

/-- The `Repository Size (KB)` cell:
`f"{size / 1024:.2f}" if isinstance(size, (int, float)) else size`. -/
def renderSize : CellVal → String
  | .num n => formatKB n
  | .str s => s

/-- How `csv.DictWriter` serializes a cell that is either an int or a
string. -/
def renderCell : CellVal → String
  | .num n => toString n
  | .str s => s

/-- One non-header CSV row, fields in header order. -/
structure Row where
  projectName : String
  repoName : String
  sizeKB : String
  lastUpdated : String
  branches : String
  files : String
  openPRs : String
  commits : String
deriving Repr, DecidableEq

/-- The placeholder row written for a project whose repository list is
empty. -/
def placeholderRow (pname : String) : Row :=
  { projectName := pname, repoName := "N/A", sizeKB := "N/A", lastUpdated := "N/A",
    branches := "N/A", files := "N/A", openPRs := "N/A", commits := "N/A" }

/-- The body of the per-repository loop of `main`: fetch the six metrics in
source order and build the row.  The metadata fetch is additionally wrapped
in `try/except` by `main` (harmless: it never raises); the branch, PR and
commit fetches are not, so their failures escape as `.error`. -/
def processRepo (now : Nat) (pname : String) (repo : Repo) (renv : RepoEnv) :
    Except Err Row :=
  let md := get_repository_metadata renv.metadata
  match get_branches renv.branches with
  | .error e => .error e
  | .ok branch_count =>
    let file_count := get_files renv.files
    match get_pull_request_metrics renv.pulls with
    | .error e => .error e
    | .ok open_prs =>
      match get_commit_frequency now renv.commits with
      | .error e => .error e
      | .ok commit_frequency =>
        .ok { projectName := pname, repoName := repo.name,
              sizeKB := renderSize md.1, lastUpdated := md.2,
              branches := toString branch_count,
              files := renderCell file_count,
              openPRs := toString open_prs,
              commits := toString commit_frequency }

/-- The per-repository loop: rows written so far, and the error that aborted
the loop, if any (a `.error` from `processRepo` is uncaught and stops the
whole program before that repository's row is written). -/
def runRepos (now : Nat) (pname : String) :
    List (Repo × RepoEnv) → List Row × Option Err
  | [] => ([], none)
  | (r, renv) :: rest =>
    match processRepo now pname r renv with
    | .error e => ([], some e)
    | .ok row =>
      let o := runRepos now pname rest
      (row :: o.1, o.2)

/-- Observable outcome of the project loop: the CSV rows written (header
excluded), the repository-listing error messages printed, and the uncaught
error that aborted the run, if any. -/
structure RunOut where
  rows : List Row
  log : List String
  err : Option Err
deriving Repr, DecidableEq

/-- The project loop of `main`: an empty repository list yields one
placeholder row; a failed repository listing prints a message and skips the
project; otherwise the per-repository loop runs, and an uncaught error from
it aborts the whole run (later projects are not processed). -/
def runProjects (now : Nat) : List ProjectEnv → RunOut
  | [] => { rows := [], log := [], err := none }
  | p :: rest =>
    match p.repos with
    | .ok [] =>
      let o := runProjects now rest
      { rows := placeholderRow p.name :: o.rows, log := o.log, err := o.err }
    | .ok (r :: rs) =>
      match runRepos now p.name (r :: rs) with
      | (rows, some e) => { rows := rows, log := [], err := some e }
      | (rows, none) =>
        let o := runProjects now rest
        { rows := rows ++ o.rows, log := o.log, err := o.err }
    | .httpError _ =>
      let o := runProjects now rest
      { rows := o.rows,
        log := ("Error fetching repositories for project " ++ p.name) :: o.log,
        err := o.err }
    | .otherError =>
      let o := runProjects now rest
      { rows := o.rows,
        log := ("Error fetching repositories for project " ++ p.name) :: o.log,
        err := o.err }

/-- `main`: fetch the projects first (before the output file is opened);
a failure there is fatal and nothing is written (`none`). -/
def main (env : Env) : Option RunOut :=
  match env.projects with
  | .ok ps => some (runProjects env.now ps)
  | _ => none

/-- The repository list of a project, when its listing succeeded. -/
def reposOf (p : ProjectEnv) : List (Repo × RepoEnv) :=
  match p.repos with
  | .ok rs => rs
  | _ => []

/-- Whether the branch, pull-request and commit fetches of a repository all
succeed — exactly the three fetches `main` does not guard. -/
def bpcOk (renv : RepoEnv) : Bool :=
  renv.branches.isOk && renv.pulls.isOk && renv.commits.isOk

/-- Modelled from the spec: the row count the spec's invariant predicts for a
run — the sum over all projects of `max 1 (number of repositories)`. -/
def expectedRowCount (ps : List ProjectEnv) : Nat :=
  (ps.map (fun p => max 1 (reposOf p).length)).sum

/-- A pull-request entry with status `"active"`. -/
def prActive : PullRequest := ⟨"active"⟩

/-- A pull-request entry with status `"completed"`. -/
def prCompleted : PullRequest := ⟨"completed"⟩

/-- A pull-request entry with status `"abandoned"`. -/
def prAbandoned : PullRequest := ⟨"abandoned"⟩

/-- A metadata payload for the concrete scenarios below. -/
def witMeta : RepoMetaPayload :=
  ⟨some 204800, none, some ⟨some "2025-09-01T10:00:00Z"⟩⟩

/-- A repository whose five fetches all succeed. -/
def witRepoEnv : RepoEnv :=
  { metadata := .ok witMeta,
    branches := .ok ["main", "dev", "feature"],
    files := .ok ⟨some 10, []⟩,
    pulls := .ok [prActive, prCompleted, prActive, prAbandoned],
    commits := .ok [1767000000, 1700000000] }

/-- Two projects: `Alpha` with one healthy repository, `Beta` with none. -/
def witProjects : List ProjectEnv :=
  [⟨"Alpha", .ok [(⟨"id1", "repoA"⟩, witRepoEnv)]⟩, ⟨"Beta", .ok []⟩]

/-- A healthy run environment over `witProjects`. -/
def witEnv : Env := { now := 1767225600, projects := .ok witProjects }

/-- A repository whose branch-count fetch fails with HTTP 500 while every
other fetch succeeds. -/
def branchFailRepoEnv : RepoEnv :=
  { metadata := .ok witMeta,
    branches := .httpError 500,
    files := .ok ⟨some 3, []⟩,
    pulls := .ok [prActive],
    commits := .ok [1767000000] }

/-- A single project whose only repository is `branchFailRepoEnv`. -/
def cexProjects : List ProjectEnv :=
  [⟨"Alpha", .ok [(⟨"id1", "repoA"⟩, branchFailRepoEnv)]⟩]

/-- A run environment in which exactly one per-metric fetch (the branch
count) fails. -/
def cexEnv : Env := { now := 1767225600, projects := .ok cexProjects }

/-- A repository whose metadata fetch answers 404 while the other four
fetches succeed. -/
def metaFailRepoEnv : RepoEnv :=
  { metadata := .httpError 404,
    branches := .ok ["main"],
    files := .ok ⟨none, [⟨true, true⟩, ⟨true, false⟩, ⟨false, true⟩]⟩,
    pulls := .ok [prActive, prCompleted],
    commits := .ok [1767000000, 1700000000] }

/-- A repository whose metadata and file-count fetches fail (they degrade)
while the three unguarded fetches succeed. -/
def degradedRepoEnv : RepoEnv :=
  { metadata := .httpError 404,
    branches := .ok ["main"],
    files := .httpError 500,
    pulls := .ok [prActive],
    commits := .ok [1767000000] }

/-- Two projects: `Alpha` with one healthy and one degraded repository,
`Beta` with none. -/
def witProjects2 : List ProjectEnv :=
  [⟨"Alpha", .ok [(⟨"id1", "repoA"⟩, witRepoEnv), (⟨"id2", "repoB"⟩, degradedRepoEnv)]⟩,
   ⟨"Beta", .ok []⟩]

/-- A run environment over `witProjects2`: listings succeed and only
degrading fetches fail. -/
def witEnv2 : Env := { now := 1767225600, projects := .ok witProjects2 }

theorem processRepo_error (now : Nat) (pname : String) (repo : Repo)
    (renv : RepoEnv) (h : bpcOk renv = false) :
    ∃ e, processRepo now pname repo renv = .error e := by
  cases hb : renv.branches with
  | httpError s => exact ⟨.http s, by simp [processRepo, get_branches, hb]⟩
  | otherError => exact ⟨.other, by simp [processRepo, get_branches, hb]⟩
  | ok bs =>
    cases hp : renv.pulls with
    | httpError s =>
      exact ⟨.http s, by
        simp [processRepo, get_branches, get_pull_request_metrics, hb, hp]⟩
    | otherError =>
      exact ⟨.other, by
        simp [processRepo, get_branches, get_pull_request_metrics, hb, hp]⟩
    | ok prs =>
      cases hc : renv.commits with
      | httpError s =>
        exact ⟨.http s, by
          simp [processRepo, get_branches, get_pull_request_metrics,
            get_commit_frequency, hb, hp, hc]⟩
      | otherError =>
        exact ⟨.other, by
          simp [processRepo, get_branches, get_pull_request_metrics,
            get_commit_frequency, hb, hp, hc]⟩
      | ok cts =>
        exfalso
        rw [bpcOk, hb, hp, hc] at h
        simp [FetchResult.isOk] at h

theorem processRepo_ok (now : Nat) (pname : String) (repo : Repo)
    (renv : RepoEnv) (h : bpcOk renv = true) :
    ∃ row, processRepo now pname repo renv = .ok row := by
  simp only [bpcOk, Bool.and_eq_true] at h
  obtain ⟨⟨h1, h2⟩, h3⟩ := h
  cases hb : renv.branches with
  | httpError s => rw [hb] at h1; simp [FetchResult.isOk] at h1
  | otherError => rw [hb] at h1; simp [FetchResult.isOk] at h1
  | ok bs =>
    cases hp : renv.pulls with
    | httpError s => rw [hp] at h2; simp [FetchResult.isOk] at h2
    | otherError => rw [hp] at h2; simp [FetchResult.isOk] at h2
    | ok prs =>
      cases hc : renv.commits with
      | httpError s => rw [hc] at h3; simp [FetchResult.isOk] at h3
      | otherError => rw [hc] at h3; simp [FetchResult.isOk] at h3
      | ok cts =>
        refine Exists.intro
          { projectName := pname, repoName := repo.name,
            sizeKB := renderSize (get_repository_metadata renv.metadata).1,
            lastUpdated := (get_repository_metadata renv.metadata).2,
            branches := toString bs.length,
            files := renderCell (get_files renv.files),
            openPRs := toString ((prs.filter (fun q => q.status == "active")).length),
            commits := toString
              ((serverCommitsInRange (now - 30 * 86400) now cts).length) } ?_
        simp [processRepo, get_branches, get_pull_request_metrics,
          get_commit_frequency, hb, hp, hc]

theorem runRepos_all_ok (now : Nat) (pname : String)
    (rs : List (Repo × RepoEnv)) (h : ∀ x ∈ rs, bpcOk x.2 = true) :
    (runRepos now pname rs).1.length = rs.length ∧
    (runRepos now pname rs).2 = none := by
  induction rs with
  | nil => simp [runRepos]
  | cons x rest ih =>
    obtain ⟨r, renv⟩ := x
    obtain ⟨row, hrow⟩ :=
      processRepo_ok now pname r renv (h (r, renv) (List.mem_cons_self _ _))
    have ih' := ih (fun y hy => h y (List.mem_cons_of_mem _ hy))
    simp [runRepos, hrow, ih'.1, ih'.2]

theorem runRepos_mem_fail (now : Nat) (pname : String) (repo : Repo)
    (renv : RepoEnv) (rs : List (Repo × RepoEnv))
    (hmem : (repo, renv) ∈ rs) (hfail : bpcOk renv = false) :
    ((runRepos now pname rs).2).isSome = true ∧
    (runRepos now pname rs).1.length < rs.length := by
  induction rs with
  | nil => simp at hmem
  | cons x rest ih =>
    obtain ⟨r, re⟩ := x
    rcases List.mem_cons.mp hmem with heq | hmem'
    · injection heq with hr hre
      subst hr; subst hre
      obtain ⟨e, he⟩ := processRepo_error now pname repo renv hfail
      simp [runRepos, he]
    · cases hpr : processRepo now pname r re with
      | error e => simp [runRepos, hpr]
      | ok row =>
        have ih' := ih hmem'
        simp only [runRepos, hpr]
        constructor
        · exact ih'.1
        · simpa using Nat.succ_lt_succ ih'.2

theorem expectedRowCount_cons (p : ProjectEnv) (rest : List ProjectEnv) :
    expectedRowCount (p :: rest) = max 1 (reposOf p).length + expectedRowCount rest := by
  simp only [expectedRowCount, List.map_cons, List.sum_cons]

theorem runProjects_count (now : Nat) (ps : List ProjectEnv)
    (hlist : ∀ p ∈ ps, p.repos.isOk = true)
    (hnf : ∀ p ∈ ps, ∀ x ∈ reposOf p, bpcOk x.2 = true) :
    (runProjects now ps).err = none ∧
    (runProjects now ps).rows.length = expectedRowCount ps := by
  induction ps with
  | nil => simp [runProjects, expectedRowCount]
  | cons p rest ih =>
    have ih' := ih (fun q hq => hlist q (by simp [hq]))
      (fun q hq => hnf q (by simp [hq]))
    cases hp : p.repos with
    | httpError s =>
      have := hlist p (by simp)
      rw [hp] at this
      simp [FetchResult.isOk] at this
    | otherError =>
      have := hlist p (by simp)
      rw [hp] at this
      simp [FetchResult.isOk] at this
    | ok rs =>
      cases rs with
      | nil =>
        have hrep : reposOf p = [] := by simp [reposOf, hp]
        rw [expectedRowCount_cons, hrep]
        simp only [runProjects, hp, List.length_cons, List.length_nil]
        refine ⟨ih'.1, ?_⟩
        rw [ih'.2]
        omega
      | cons r rs' =>
        have hrep : reposOf p = r :: rs' := by simp [reposOf, hp]
        have hall : ∀ x ∈ (r :: rs'), bpcOk x.2 = true := by
          have := hnf p (List.mem_cons_self _ _)
          rw [hrep] at this
          exact this
        obtain ⟨hlen, hnone⟩ := runRepos_all_ok now p.name (r :: rs') hall
        rcases hrr : runRepos now p.name (r :: rs') with ⟨rows, err⟩
        rw [hrr] at hlen hnone
        simp only at hlen hnone
        subst hnone
        rw [expectedRowCount_cons, hrep]
        simp only [runProjects, hp, hrr, List.length_append, List.length_cons]
        refine ⟨ih'.1, ?_⟩
        rw [ih'.2]
        simp only [List.length_cons] at hlen
        omega

/-- C3: a repository-metadata fetch answering HTTP 404 returns the marker
pair `("Archived/Inaccessible", "Archived/Inaccessible")` instead of
raising, any other failure returns `("Error", "Error")`, and in both cases
the repository's row is still emitted with the remaining four metrics
populated normally. -/
theorem C3_metadata_error_markers (s : Nat) (hs : s ≠ 404)
    (now : Nat) (pname : String) (repo : Repo) (renv : RepoEnv)
    (_hmeta : renv.metadata.isOk = false)
    (bs : List String) (prs : List PullRequest) (cts : List Nat)
    (hb : renv.branches = .ok bs) (hpl : renv.pulls = .ok prs)
    (hc : renv.commits = .ok cts) :
    get_repository_metadata (.httpError 404) =
      (.str "Archived/Inaccessible", "Archived/Inaccessible") ∧
    get_repository_metadata (.httpError s) = (.str "Error", "Error") ∧
    get_repository_metadata .otherError = (.str "Error", "Error") ∧
    processRepo now pname repo renv = .ok
      { projectName := pname, repoName := repo.name,
        sizeKB := renderSize (get_repository_metadata renv.metadata).1,
        lastUpdated := (get_repository_metadata renv.metadata).2,
        branches := toString bs.length,
        files := renderCell (get_files renv.files),
        openPRs := toString ((prs.filter (fun q => q.status == "active")).length),
        commits := toString
          ((serverCommitsInRange (now - 30 * 86400) now cts).length) } := by
  refine ⟨rfl, ?_, rfl, ?_⟩
  · simp [get_repository_metadata, hs]
  · simp [processRepo, get_branches, get_pull_request_metrics,
      get_commit_frequency, hb, hpl, hc]

/-- C3 witness: the 404-metadata repository `metaFailRepoEnv` still yields
its row with the other four metrics populated. -/
theorem C3_metadata_error_markers_witness :
    get_repository_metadata (.httpError 404) =
      (.str "Archived/Inaccessible", "Archived/Inaccessible") ∧
    get_repository_metadata (.httpError 500) = (.str "Error", "Error") ∧
    get_repository_metadata .otherError = (.str "Error", "Error") ∧
    processRepo 1767225600 "Alpha" ⟨"id1", "repoA"⟩ metaFailRepoEnv = .ok
      { projectName := "Alpha", repoName := "repoA",
        sizeKB := renderSize (get_repository_metadata metaFailRepoEnv.metadata).1,
        lastUpdated := (get_repository_metadata metaFailRepoEnv.metadata).2,
        branches := toString (["main"] : List String).length,
        files := renderCell (get_files metaFailRepoEnv.files),
        openPRs := toString
          (([prActive, prCompleted].filter (fun q => q.status == "active")).length),
        commits := toString
          ((serverCommitsInRange (1767225600 - 30 * 86400) 1767225600
            [1767000000, 1700000000]).length) } :=
  C3_metadata_error_markers 500 (by decide) 1767225600 "Alpha" ⟨"id1", "repoA"⟩
    metaFailRepoEnv rfl ["main"] [prActive, prCompleted] [1767000000, 1700000000]
    rfl rfl rfl

/-- C4: the file-count fetch returns the server-reported `count` when
present, otherwise the number of returned entries that carry a `size`
attribute; an HTTP 404 yields `0`; any other failure yields the marker
string `"Error fetching files"` instead of raising. -/
theorem C4_file_count_policy (c : Nat) (items : List Item) (s : Nat)
    (hs : s ≠ 404) :
    get_files (.ok ⟨some c, items⟩) = .num c ∧
    get_files (.ok ⟨none, items⟩) =
      .num (items.countP (fun it => it.isDict && it.hasSize)) ∧
    get_files (.httpError 404) = .num 0 ∧
    get_files (.httpError s) = .str "Error fetching files" ∧
    get_files .otherError = .str "Error fetching files" := by
  refine ⟨rfl, ?_, rfl, ?_, rfl⟩
  · simp [get_files, List.countP_eq_length_filter]
  · simp [get_files, hs]

/-- C4 witness: the policy at `count = 10`, a three-entry fallback list with
two `size`-carrying dict entries, and status 500. -/
theorem C4_file_count_policy_witness :
    get_files (.ok ⟨some 10, [⟨true, true⟩, ⟨true, false⟩, ⟨false, true⟩]⟩) = .num 10 ∧
    get_files (.ok ⟨none, [⟨true, true⟩, ⟨true, false⟩, ⟨false, true⟩]⟩) =
      .num (([⟨true, true⟩, ⟨true, false⟩, ⟨false, true⟩] : List Item).countP
        (fun it => it.isDict && it.hasSize)) ∧
    get_files (.httpError 404) = .num 0 ∧
    get_files (.httpError 500) = .str "Error fetching files" ∧
    get_files .otherError = .str "Error fetching files" :=
  C4_file_count_policy 10 [⟨true, true⟩, ⟨true, false⟩, ⟨false, true⟩] 500 (by decide)

/-- C5: a project whose repository listing succeeds with an empty list emits
exactly one row, with every metric field equal to `"N/A"`, and processing
continues with the next project. -/
theorem C5_empty_project_placeholder (now : Nat) (p : ProjectEnv)
    (rest : List ProjectEnv) (h : p.repos = .ok []) :
    runProjects now (p :: rest) =
      { rows := { projectName := p.name, repoName := "N/A", sizeKB := "N/A",
                  lastUpdated := "N/A", branches := "N/A", files := "N/A",
                  openPRs := "N/A", commits := "N/A" } :: (runProjects now rest).rows,
        log := (runProjects now rest).log,
        err := (runProjects now rest).err } := by
  simp [runProjects, h, placeholderRow]

/-- C5 witness: the placeholder row for an empty project `Beta`. -/
theorem C5_empty_project_placeholder_witness :
    runProjects 0 [⟨"Beta", .ok []⟩] =
      { rows := { projectName := "Beta", repoName := "N/A", sizeKB := "N/A",
                  lastUpdated := "N/A", branches := "N/A", files := "N/A",
                  openPRs := "N/A", commits := "N/A" } :: (runProjects 0 []).rows,
        log := (runProjects 0 []).log,
        err := (runProjects 0 []).err } :=
  C5_empty_project_placeholder 0 ⟨"Beta", .ok []⟩ [] rfl

/-- C6: the open-pull-request count is the number of entries whose status
is exactly `"active"`; appending or prepending an entry with any other
status leaves the count unchanged. -/
theorem C6_active_pr_count (prs : List PullRequest) (pr : PullRequest)
    (hpr : pr.status ≠ "active") :
    get_pull_request_metrics (.ok prs) =
      .ok (prs.countP (fun q => q.status == "active")) ∧
    get_pull_request_metrics (.ok (prs ++ [pr])) =
      get_pull_request_metrics (.ok prs) ∧
    get_pull_request_metrics (.ok (pr :: prs)) =
      get_pull_request_metrics (.ok prs) := by
  have hfalse : (pr.status == "active") = false := beq_eq_false_iff_ne.mpr hpr
  refine ⟨?_, ?_, ?_⟩
  · simp [get_pull_request_metrics, List.countP_eq_length_filter]
  · simp [get_pull_request_metrics, List.filter_append, hfalse]
  · simp [get_pull_request_metrics, List.filter_cons, hfalse]

/-- C6 witness: the mixed-status list `[active, completed, active,
abandoned]`, with a `completed` entry as the excluded extra. -/
theorem C6_active_pr_count_witness :
    get_pull_request_metrics (.ok [prActive, prCompleted, prActive, prAbandoned]) =
      .ok (([prActive, prCompleted, prActive, prAbandoned] : List PullRequest).countP
        (fun q => q.status == "active")) ∧
    get_pull_request_metrics
        (.ok ([prActive, prCompleted, prActive, prAbandoned] ++ [prCompleted])) =
      get_pull_request_metrics (.ok [prActive, prCompleted, prActive, prAbandoned]) ∧
    get_pull_request_metrics
        (.ok (prCompleted :: [prActive, prCompleted, prActive, prAbandoned])) =
      get_pull_request_metrics (.ok [prActive, prCompleted, prActive, prAbandoned]) :=
  C6_active_pr_count [prActive, prCompleted, prActive, prAbandoned] prCompleted
    (by decide)

/-- C7: a numeric size is rendered as size divided by 1024 with exactly two
decimal places — the rendered digits encode the integer nearest to
`100 * size / 1024` — with `204800` rendering exactly as `"200.00"`; a
non-numeric marker string passes through unchanged. -/
theorem C7_size_rendering (n : Nat) (s : String) :
    renderSize (.num 204800) = "200.00" ∧
    renderSize (.str s) = s ∧
    ∃ k, renderSize (.num n) = toString (k / 100) ++ "." ++ pad2 (k % 100) ∧
      1024 * k ≤ 100 * n + 512 ∧ 100 * n ≤ 1024 * k + 512 := by
  have hqr : 1024 * ((n * 100) / 1024) + (n * 100) % 1024 = n * 100 :=
    Nat.div_add_mod (n * 100) 1024
  have hrlt : (n * 100) % 1024 < 1024 := Nat.mod_lt _ (by omega)
  refine ⟨rfl, rfl, roundHalfEven (n * 100) 1024, rfl, ?_, ?_⟩
  all_goals
    unfold roundHalfEven
    split_ifs <;> omega

/-- C10: a successful metadata fetch takes `Last Updated` from the embedded
`project.lastUpdateTime` field — independent of any repository-level
timestamp — defaulting to `"Unknown"` when the project object or the field
is absent, and the size defaults to `0` when absent. -/
theorem C10_metadata_field_sources (sz : Option Nat) (rlu rlu' : Option String)
    (plu : String) (po : Option ProjObj) :
    get_repository_metadata (.ok ⟨sz, rlu, some ⟨some plu⟩⟩) =
      (.num (sz.getD 0), plu) ∧
    get_repository_metadata (.ok ⟨sz, rlu, some ⟨none⟩⟩) =
      (.num (sz.getD 0), "Unknown") ∧
    get_repository_metadata (.ok ⟨sz, rlu, none⟩) =
      (.num (sz.getD 0), "Unknown") ∧
    get_repository_metadata (.ok ⟨none, rlu, po⟩) =
      (.num 0, (get_repository_metadata (.ok ⟨none, rlu, po⟩)).2) ∧
    get_repository_metadata (.ok ⟨sz, rlu, po⟩) =
      get_repository_metadata (.ok ⟨sz, rlu', po⟩) :=
  ⟨rfl, rfl, rfl, rfl, rfl⟩

/-- C8: the commit query covers the inclusive UTC window
`[now − 30 days, now]` and counts exactly the commits inside it; a commit
exactly 31 days old is excluded, one exactly at the lower boundary (and one
at `now`) is included; the bounds are serialized as ISO-8601 UTC
timestamps, as witnessed at a concrete instant. -/
theorem C8_commit_window (now : Nat) (h : 31 * 86400 ≤ now) (ts : List Nat) :
    get_commit_frequency now (.ok ts) =
      .ok (ts.countP (fun t => decide (now - 30 * 86400 ≤ t) && decide (t ≤ now))) ∧
    get_commit_frequency now (.ok [now - 31 * 86400]) = .ok 0 ∧
    get_commit_frequency now (.ok [now - 30 * 86400]) = .ok 1 ∧
    get_commit_frequency now (.ok [now]) = .ok 1 ∧
    commitQueryBounds 1767225600 = ("2025-12-02T00:00:00Z", "2026-01-01T00:00:00Z") := by
  have h1 : (decide (now - 30 * 86400 ≤ now - 31 * 86400)) = false :=
    decide_eq_false (by omega)
  refine ⟨?_, ?_, ?_, ?_, by decide⟩
  · simp [get_commit_frequency, serverCommitsInRange, List.countP_eq_length_filter]
  · simp [get_commit_frequency, serverCommitsInRange, h1]
    omega
  · simp only [get_commit_frequency, serverCommitsInRange, List.filter_cons,
      List.filter_nil]
    split_ifs with hsplit
    · rfl
    · exfalso
      revert hsplit
      simp
  · simp only [get_commit_frequency, serverCommitsInRange, List.filter_cons,
      List.filter_nil]
    split_ifs with hsplit
    · rfl
    · exfalso
      revert hsplit
      simp

/-- C8 witness: the window at `now = 1767225600` (2026-01-01T00:00:00Z). -/
theorem C8_commit_window_witness :
    get_commit_frequency 1767225600 (.ok [1767000000, 1700000000]) =
      .ok (([1767000000, 1700000000] : List Nat).countP
        (fun t => decide (1767225600 - 30 * 86400 ≤ t) && decide (t ≤ 1767225600))) ∧
    get_commit_frequency 1767225600 (.ok [1767225600 - 31 * 86400]) = .ok 0 ∧
    get_commit_frequency 1767225600 (.ok [1767225600 - 30 * 86400]) = .ok 1 ∧
    get_commit_frequency 1767225600 (.ok [1767225600]) = .ok 1 ∧
    commitQueryBounds 1767225600 = ("2025-12-02T00:00:00Z", "2026-01-01T00:00:00Z") :=
  C8_commit_window 1767225600 (by decide) [1767000000, 1700000000]

/-- C9: a failed repository listing is logged and only skips that project —
the rows, remaining log and abort status are those of the remaining
projects — while a failed project listing is fatal: `main` produces no
output at all. -/
theorem C9_project_skip_and_fatal (now : Nat) (p : ProjectEnv)
    (rest : List ProjectEnv) (env : Env)
    (hfail : p.repos.isOk = false) (hpf : env.projects.isOk = false) :
    (runProjects now (p :: rest)).rows = (runProjects now rest).rows ∧
    (runProjects now (p :: rest)).log =
      ("Error fetching repositories for project " ++ p.name) ::
        (runProjects now rest).log ∧
    (runProjects now (p :: rest)).err = (runProjects now rest).err ∧
    main env = none := by
  have hmain : main env = none := by
    cases henv : env.projects with
    | ok ps => rw [henv] at hpf; simp [FetchResult.isOk] at hpf
    | httpError s => simp [main, henv]
    | otherError => simp [main, henv]
  cases hp : p.repos with
  | ok rs => rw [hp] at hfail; simp [FetchResult.isOk] at hfail
  | httpError s =>
    exact ⟨by simp [runProjects, hp], by simp [runProjects, hp],
      by simp [runProjects, hp], hmain⟩
  | otherError =>
    exact ⟨by simp [runProjects, hp], by simp [runProjects, hp],
      by simp [runProjects, hp], hmain⟩

/-- C9 witness: project `Gamma` with a failed listing is skipped and logged;
a run whose project listing fails writes nothing. -/
theorem C9_project_skip_and_fatal_witness :
    (runProjects 0 [⟨"Gamma", .httpError 500⟩]).rows = (runProjects 0 []).rows ∧
    (runProjects 0 [⟨"Gamma", .httpError 500⟩]).log =
      ("Error fetching repositories for project " ++ "Gamma") ::
        (runProjects 0 []).log ∧
    (runProjects 0 [⟨"Gamma", .httpError 500⟩]).err = (runProjects 0 []).err ∧
    main { now := 0, projects := .otherError } = none :=
  C9_project_skip_and_fatal 0 ⟨"Gamma", .httpError 500⟩ []
    { now := 0, projects := .otherError } rfl rfl

/-- C2: a failure of the branch-count, pull-request-count or commit-count
fetch of any repository of a project is not caught: the per-repository step
reports the error, the run ends with an uncaught error, and strictly fewer
rows than the project has repositories are written in the whole remaining
run — in particular the failing repository's row is never written. -/
theorem C2_unguarded_fetch_aborts (now : Nat) (p : ProjectEnv) (repo : Repo)
    (renv : RepoEnv) (rs : List (Repo × RepoEnv)) (rest : List ProjectEnv)
    (hp : p.repos = .ok rs) (hmem : (repo, renv) ∈ rs)
    (hfail : bpcOk renv = false) :
    (∃ e, processRepo now p.name repo renv = .error e) ∧
    ((runProjects now (p :: rest)).err).isSome = true ∧
    (runProjects now (p :: rest)).rows.length < rs.length := by
  cases rs with
  | nil => simp at hmem
  | cons r rs' =>
    obtain ⟨hsome, hlt⟩ :=
      runRepos_mem_fail now p.name repo renv (r :: rs') hmem hfail
    rcases hrr : runRepos now p.name (r :: rs') with ⟨rows, err⟩
    rw [hrr] at hsome hlt
    simp only at hsome hlt
    cases err with
    | none => simp at hsome
    | some e =>
      refine ⟨processRepo_error now p.name repo renv hfail, ?_, ?_⟩
      · simp [runProjects, hp, hrr]
      · simpa [runProjects, hp, hrr] using hlt

/-- C2 witness: a repository whose branch-count fetch answers HTTP 500
aborts the whole run before its row is written. -/
theorem C2_unguarded_fetch_aborts_witness :
    (∃ e, processRepo 1767225600
      (ProjectEnv.name ⟨"Alpha", .ok [(⟨"id1", "repoA"⟩, branchFailRepoEnv)]⟩)
      ⟨"id1", "repoA"⟩ branchFailRepoEnv = .error e) ∧
    ((runProjects 1767225600
      [⟨"Alpha", .ok [(⟨"id1", "repoA"⟩, branchFailRepoEnv)]⟩]).err).isSome = true ∧
    (runProjects 1767225600
      [⟨"Alpha", .ok [(⟨"id1", "repoA"⟩, branchFailRepoEnv)]⟩]).rows.length <
      ([(⟨"id1", "repoA"⟩, branchFailRepoEnv)] : List (Repo × RepoEnv)).length :=
  C2_unguarded_fetch_aborts 1767225600
    ⟨"Alpha", .ok [(⟨"id1", "repoA"⟩, branchFailRepoEnv)]⟩ ⟨"id1", "repoA"⟩
    branchFailRepoEnv [(⟨"id1", "repoA"⟩, branchFailRepoEnv)] [] rfl
    (List.mem_cons_self _ _) rfl

/-- C1 counterexample: in the run `cexEnv` — one project with one
repository whose branch-count fetch fails — zero non-header rows are
written, while the claimed count `sum of max(1, repository count)` is `1`:
a per-metric fetch failure does skip a row. -/
theorem C1_counterexample :
    main cexEnv = some { rows := [], log := [], err := some (.http 500) } ∧
    expectedRowCount cexProjects = 1 :=
  ⟨rfl, rfl⟩

/-- C1 (amended): in every run whose project listing succeeds, whose
repository listings all succeed, and in which no branch-count,
pull-request-count or commit-count fetch fails, the run does not abort and
the number of non-header rows equals the sum over projects of
`max 1 (repository count)`; metadata and file-count fetch failures are
allowed and never skip a row. -/
theorem C1_row_count_amended (env : Env) (ps : List ProjectEnv)
    (hps : env.projects = .ok ps)
    (hlist : ∀ p ∈ ps, p.repos.isOk = true)
    (hnf : ∀ p ∈ ps, ∀ x ∈ reposOf p, bpcOk x.2 = true) :
    main env = some (runProjects env.now ps) ∧
    (runProjects env.now ps).err = none ∧
    (runProjects env.now ps).rows.length = expectedRowCount ps := by
  obtain ⟨h1, h2⟩ := runProjects_count env.now ps hlist hnf
  exact ⟨by simp [main, hps], h1, h2⟩

/-- C1 witness: `witEnv2` — a healthy repository, a repository with
degraded metadata and file fetches, and an empty project — yields exactly
`max 1 2 + max 1 0 = 3` rows and no abort. -/
theorem C1_row_count_amended_witness :
    main witEnv2 = some (runProjects witEnv2.now witProjects2) ∧
    (runProjects witEnv2.now witProjects2).err = none ∧
    (runProjects witEnv2.now witProjects2).rows.length =
      expectedRowCount witProjects2 :=
  C1_row_count_amended witEnv2 witProjects2 rfl (by decide) (by decide)

end Analysis
